import Mathlib

/-!
# Verification of the WAF checker core (`waf_checker.py`)

Shallow embedding of the signal-collection-and-inference engine of
`waf_checker.py`: the pattern registry, the DNS signal collector
(`_check_dns_indicators`), the HTTP signal collector
(`_check_http_indicators`), the vendor resolver (`_determine_waf_type`)
and the per-URL orchestrator (`check_waf_protection`).

Strings are modelled by Lean `String`; Python's substring test `p in s`
is `pyIn p s`, and `str.lower()` is `lowerStr` (the probed data is ASCII,
so per-character lowering is faithful).  The effectful parts of
`check_waf_protection` (the `urlparse` call, the two DNS queries and the
`requests.get` fetch) are made explicit as an `Env` record that carries
each call's outcome; the orchestrator is then a total function of the URL
and that environment, mirroring the source's `try`/`except` structure.
-/

namespace WafChecker

/-- `startsWith p s`: the char list `p` is an initial segment of `s`. -/
def startsWith : List Char → List Char → Bool
  | [], _ => true
  | _ :: _, [] => false
  | p :: ps, c :: cs => p = c && startsWith ps cs

/-- Substring containment on char lists (Python's `pat in s` on `str`). -/
def containsSub (pat : List Char) : List Char → Bool
  | [] => pat.isEmpty
  | c :: cs => startsWith pat (c :: cs) || containsSub pat cs

/-- Python's `pat in s` for strings. -/
def pyIn (pat s : String) : Bool := containsSub pat.data s.data

/-- Python's `s.lower()` (ASCII case folding, as `Char.toLower`). -/
def lowerStr (s : String) : String := ⟨s.data.map Char.toLower⟩

/-- The pattern registry `self.waf_patterns` of `WAFChecker.__init__`
(`waf_checker.py` lines 49–60), in the dict's insertion order, with the
source's duplicate entries kept. -/
def waf_patterns : List (String × List String) :=
  [("cloudflare", ["cloudflare", "__cfduid", "cf-ray"]),
   ("aws_waf", ["x-amz-cf-id", "x-amz-cf-pop", "x-amz-cf-id"]),
   ("akamai", ["akamai", "x-akamai-transformed"]),
   ("fastly", ["fastly", "x-fastly"]),
   ("imperva", ["incap_ses", "visid_incap", "x-iinfo"]),
   ("f5_bigip", ["bigip", "x-wa-info"]),
   ("barracuda", ["barra_counter_session", "barra_counter_session"]),
   ("citrix", ["citrix", "ns_af"]),
   ("sucuri", ["sucuri", "x-sucuri"]),
   ("cloudfront", ["x-amz-cf-id", "x-amz-cf-pop"])]

/-- Outcome of one `dns.resolver.resolve(domain, rtype)` call. -/
inductive DnsOutcome where
  | ok (records : List String)
  | nxdomain
  | noanswer
  | failure (msg : String)
deriving DecidableEq

/-- Indicators appended for one TXT record (`waf_checker.py` 205–209):
for each registry entry, if any pattern occurs in the lowercased record
text, append `DNS_TXT_{waf_name}`. -/
def txtIndicatorsFor (txt : String) : List String :=
  waf_patterns.filterMap fun wp =>
    if wp.2.any (fun p => pyIn p (lowerStr txt)) then some ("DNS_TXT_" ++ wp.1)
    else none

/-- The TXT loop of `_check_dns_indicators` over all returned records. -/
def txtIndicators (recs : List String) : List String :=
  recs.foldl (fun acc r => acc ++ txtIndicatorsFor r) []

/-- The fixed CDN token list of `_check_dns_indicators` line 220. -/
def cdn_tokens : List String := ["cloudflare", "akamai", "fastly", "cloudfront"]

/-- The CNAME loop of `_check_dns_indicators` (lines 217–221).  The
source writes `indicators.append(f"DNS_CNAME_{cdn}")`, but `cdn` is the
generator-expression variable of the `any(...)` test, which in Python 3
is not in scope at that point: on every matching target the f-string
raises `NameError` before the append, the collector-wide
`except Exception` handler catches it, and the accumulated list is
returned unchanged.  A non-matching target just continues the loop. -/
def cnameScan (acc : List String) : List String → List String
  | [] => acc
  | t :: ts =>
    if cdn_tokens.any (fun c => pyIn c (lowerStr t)) then acc
    else cnameScan acc ts

/-- The CNAME phase of `_check_dns_indicators`: `NoAnswer` is caught by
the inner handler (line 222), `NXDOMAIN` and any other failure escape to
the collector-wide `except Exception` (line 225); in every case the
indicators accumulated so far are returned. -/
def cnamePhase (acc : List String) : DnsOutcome → List String
  | .ok targets => cnameScan acc targets
  | .noanswer => acc
  | .nxdomain => acc
  | .failure _ => acc

/-- `WAFChecker._check_dns_indicators` (lines 197–228) as a function of
the two query outcomes.  For the TXT query, `NXDOMAIN` and `NoAnswer`
are caught by the inner handlers (lines 210–213) and the CNAME phase
still runs; any other TXT failure escapes to the collector-wide handler,
so the CNAME query is never made and the (empty) accumulator is
returned. -/
def check_dns_indicators (txtQ cnameQ : DnsOutcome) : List String :=
  match txtQ with
  | .ok recs => cnamePhase (txtIndicators recs) cnameQ
  | .nxdomain => cnamePhase [] cnameQ
  | .noanswer => cnamePhase [] cnameQ
  | .failure _ => []

/-- An already-completed HTTP response, as `_check_http_indicators`
reads it: header name/value pairs, cookie names, and the decoded body
(`none` when `response.text` raises, which the source swallows). -/
structure HttpResponse where
  headers : List (String × String)
  cookies : List String
  body : Option String
deriving DecidableEq

/-- Indicators appended for one header pair (lines 235–241): both name
and value are lowercased, and each registry entry whose pattern set hits
either one appends `HTTP_HEADER_{waf_name}`. -/
def headerIndicatorsFor (h : String × String) : List String :=
  waf_patterns.filterMap fun wp =>
    if wp.2.any (fun p => pyIn p (lowerStr h.1) || pyIn p (lowerStr h.2)) then
      some ("HTTP_HEADER_" ++ wp.1)
    else none

/-- The header loop of `_check_http_indicators`. -/
def headerIndicators (hs : List (String × String)) : List String :=
  hs.foldl (fun acc h => acc ++ headerIndicatorsFor h) []

/-- Indicators appended for one cookie (lines 244–248): the cookie name
is lowercased and each matching registry entry appends
`HTTP_COOKIE_{waf_name}`. -/
def cookieIndicatorsFor (c : String) : List String :=
  waf_patterns.filterMap fun wp =>
    if wp.2.any (fun p => pyIn p (lowerStr c)) then some ("HTTP_COOKIE_" ++ wp.1)
    else none

/-- The cookie loop of `_check_http_indicators`. -/
def cookieIndicators (cs : List String) : List String :=
  cs.foldl (fun acc c => acc ++ cookieIndicatorsFor c) []

/-- The body phase of `_check_http_indicators` (lines 251–257): if
`response.text` decodes, each registry entry whose pattern set hits the
lowercased body appends `HTTP_BODY_{waf_name}` once; a decode failure is
swallowed and the phase contributes nothing. -/
def bodyIndicators : Option String → List String
  | none => []
  | some b =>
    waf_patterns.filterMap fun wp =>
      if wp.2.any (fun p => pyIn p (lowerStr b)) then some ("HTTP_BODY_" ++ wp.1)
      else none

/-- `WAFChecker._check_http_indicators` (lines 230–259). -/
def check_http_indicators (r : HttpResponse) : List String :=
  headerIndicators r.headers ++ cookieIndicators r.cookies ++ bodyIndicators r.body

/-- Python's `s.split('_')` on char lists: split at every underscore,
keeping empty pieces (`"".split('_') == ['']`). -/
def splitUnderscore : List Char → List (List Char)
  | [] => [[]]
  | c :: t =>
    let r := splitUnderscore t
    if c = '_' then [] :: r
    else
      match r with
      | [] => [[c]]
      | h :: rest => (c :: h) :: rest

/-- `indicator.split('_')[-1]` (line 266): the piece after the last
underscore. -/
def lastComp (s : String) : String := ⟨(splitUnderscore s.data).getLastD []⟩

/-- `waf_counts[waf_name] = waf_counts.get(waf_name, 0) + 1` on a dict
modelled as an insertion-ordered association list. -/
def bump (m : List (String × Nat)) (k : String) : List (String × Nat) :=
  match m with
  | [] => [(k, 1)]
  | (k', v) :: t => if k' = k then (k', v + 1) :: t else (k', v) :: bump t k

/-- The tally loop of `_determine_waf_type` (lines 263–267). -/
def tallyCounts (indicators : List String) : List (String × Nat) :=
  indicators.foldl (fun m i => bump m (lastComp i)) []

/-- Python's `max(keys, key=get)` over the dict's (insertion) order:
scan left to right, replacing the current best only on a strictly
greater count, so the first key attaining the maximum wins. -/
def pickMaxGo (bk : String) (bv : Nat) : List (String × Nat) → String
  | [] => bk
  | (k, v) :: t => if v > bv then pickMaxGo k v t else pickMaxGo bk bv t

/-- `WAFChecker._determine_waf_type` (lines 261–272): tally by the piece
after the last underscore of each indicator label, return
`max(waf_counts, key=waf_counts.get)` when the dict is non-empty and the
string `"unknown"` otherwise. -/
def determine_waf_type (indicators : List String) : String :=
  match tallyCounts indicators with
  | [] => "unknown"
  | (k, v) :: t => pickMaxGo k v t

/-- A completed `requests.get` call: status code, elapsed time (an
abstract tick count standing for the float seconds) and the response. -/
structure HttpOk where
  status : Nat
  elapsed : Nat
  resp : HttpResponse
deriving DecidableEq

/-- The outcomes of the effectful calls `check_waf_protection` makes for
one URL: `urlparse(url).netloc`, the TXT and CNAME queries, and
`requests.get` (with `.error` standing for a raised
`RequestException` / exception message `str(e)`). -/
structure Env where
  parseNetloc : Except String String
  txtQ : DnsOutcome
  cnameQ : DnsOutcome
  http : Except String HttpOk

/-- The result dict of `check_waf_protection` (lines 148–156). -/
structure CheckResult where
  url : String
  waf_detected : Bool
  waf_type : Option String
  waf_indicators : List String
  status_code : Option Nat
  response_time : Option Nat
  error : Option String
deriving DecidableEq

/-- `e.isLeft` for the `Except` outcomes of `Env`. -/
def isErr {α : Type} : Except String α → Bool
  | .error _ => true
  | .ok _ => false

/-- `WAFChecker.check_waf_protection` (lines 146–195).  The result dict
starts with all detection fields at their defaults; a failure of
`urlparse` is caught by the generic `except Exception` (line 191), a
`RequestException` from `requests.get` by line 188 — both set `error`
and return the result as built so far.  On a successful fetch the HTTP
indicators are appended and, when any indicator exists, `waf_type` is
resolved. -/
def check_waf_protection (url : String) (env : Env) : CheckResult :=
  let base : CheckResult := ⟨url, false, none, [], none, none, none⟩
  match env.parseNetloc with
  | .error e => { base with error := some e }
  | .ok _domain =>
    let dns := check_dns_indicators env.txtQ env.cnameQ
    let r1 :=
      if dns.isEmpty then base
      else { base with waf_detected := true, waf_indicators := dns }
    match env.http with
    | .error e => { r1 with error := some e }
    | .ok h =>
      let r2 := { r1 with response_time := some h.elapsed, status_code := some h.status }
      let httpInd := check_http_indicators h.resp
      let r3 :=
        if httpInd.isEmpty then r2
        else { r2 with waf_detected := true,
                       waf_indicators := r2.waf_indicators ++ httpInd }
      if r3.waf_indicators.isEmpty then r3
      else { r3 with waf_type := some (determine_waf_type r3.waf_indicators) }

/-! ## Helper lemmas -/

/-- The CNAME loop never extends the accumulator: a matching target
raises the `NameError` documented at `cnameScan`, a non-matching one
appends nothing. -/
theorem cnameScan_eq (acc : List String) : ∀ ts, cnameScan acc ts = acc
  | [] => rfl
  | t :: ts => by
    unfold cnameScan
    split
    · rfl
    · exact cnameScan_eq acc ts

/-- Every outcome of the CNAME phase returns the accumulator unchanged. -/
theorem cnamePhase_eq (acc : List String) (q : DnsOutcome) : cnamePhase acc q = acc := by
  cases q <;> simp [cnamePhase, cnameScan_eq]

/-- With a successful TXT query the collector's output is exactly the
TXT indicators, whatever the CNAME query does. -/
theorem check_dns_eq_txt (recs : List String) (q : DnsOutcome) :
    check_dns_indicators (.ok recs) q = txtIndicators recs := by
  simp [check_dns_indicators, cnamePhase_eq]

/-- `String.append` is left-cancellative. -/
theorem string_append_cancel {p a b : String} (h : p ++ a = p ++ b) : a = b := by
  apply String.ext
  have h2 := congrArg String.data h
  rw [String.data_append, String.data_append] at h2
  exact List.append_cancel_left h2

/-- Field-level description of `check_waf_protection`, obtained by
unfolding the branches of the source's control flow. -/
theorem check_fields (url : String) (env : Env) :
    check_waf_protection url env =
      match env.parseNetloc with
      | .error e => ⟨url, false, none, [], none, none, some e⟩
      | .ok _ =>
        let dns := check_dns_indicators env.txtQ env.cnameQ
        match env.http with
        | .error e => ⟨url, !dns.isEmpty, none, dns, none, none, some e⟩
        | .ok h =>
          let inds := dns ++ check_http_indicators h.resp
          ⟨url, !inds.isEmpty,
            if inds.isEmpty then none else some (determine_waf_type inds),
            inds, some h.status, some h.elapsed, none⟩ := by
  rcases env with ⟨p, tq, cq, h⟩
  cases p with
  | error e => rfl
  | ok d =>
    cases h with
    | error e =>
      simp only [check_waf_protection]
      by_cases hd : (check_dns_indicators tq cq).isEmpty
      · have hnil : check_dns_indicators tq cq = [] := List.isEmpty_iff.mp hd
        simp [hd, hnil]
      · simp [hd]
    | ok k =>
      simp only [check_waf_protection]
      by_cases hd : (check_dns_indicators tq cq).isEmpty
      · have hnil : check_dns_indicators tq cq = [] := List.isEmpty_iff.mp hd
        by_cases hh : (check_http_indicators k.resp).isEmpty
        · have hnil2 : check_http_indicators k.resp = [] := List.isEmpty_iff.mp hh
          simp [hd, hh, hnil, hnil2]
        · simp [hd, hh, hnil]
      · by_cases hh : (check_http_indicators k.resp).isEmpty
        · have hnil2 : check_http_indicators k.resp = [] := List.isEmpty_iff.mp hh
          simp [hd, hh, hnil2]
        · have h1 : ¬(check_dns_indicators tq cq ++ check_http_indicators k.resp).isEmpty := by
            simp [List.isEmpty_iff] at hd ⊢
            simp [hd]
          simp [hd, hh, h1]

/-! ## Claims -/

/-- C2: code bug.  At the failing input — a domain whose CNAME query
returns the CloudFront target `d111111abcdef8.cloudfront.net.` and whose
HTTP fetch is refused — the code yields no `DNS_CNAME` indicator, no
detection and no vendor: the source's `f"DNS_CNAME_{cdn}"` names the
generator-expression variable `cdn`, which is out of scope in Python 3,
so every CNAME match raises `NameError`, caught by the collector's
catch-all handler; the claim's expected `wafDetected=true`,
`wafVendor="cloudfront"` never happens. -/
theorem c2_cname_match_lost :
    check_dns_indicators .noanswer (.ok ["d111111abcdef8.cloudfront.net."]) = [] ∧
    check_waf_protection "https://cdn.example.com"
        ⟨.ok "cdn.example.com", .noanswer, .ok ["d111111abcdef8.cloudfront.net."],
         .error "connection refused"⟩ =
      ⟨"https://cdn.example.com", false, none, [], none, none,
       some "connection refused"⟩ := by
  decide

/-- C3: code bug.  `_determine_waf_type` recovers the tally key as
`indicator.split('_')[-1]`, the piece after the LAST underscore, so
indicators for the multi-word registry vendors `aws_waf` and `f5_bigip`
are tallied and returned as `"waf"` and `"bigip"` — strings that are not
vendor identifiers of the registry — instead of the vendor that the
collectors tagged. -/
theorem c3_multiword_vendor_mangled :
    determine_waf_type ["HTTP_HEADER_aws_waf", "HTTP_HEADER_aws_waf", "DNS_TXT_cloudflare"]
        = "waf" ∧
    determine_waf_type ["HTTP_HEADER_f5_bigip", "HTTP_HEADER_f5_bigip", "DNS_TXT_cloudflare"]
        = "bigip" ∧
    "waf" ∉ waf_patterns.map Prod.fst ∧ "bigip" ∉ waf_patterns.map Prod.fst := by
  decide

/-- C5: the DNS collector is a total function of the two query
outcomes (it never raises); `NXDOMAIN` and `NoAnswer` on either query
contribute exactly what an empty record set would, and any other
resolution failure likewise yields an empty contribution (a TXT-side
failure skips the CNAME query and returns the empty list) — the overall
check is never aborted. -/
theorem c5_dns_absent_is_empty (recs : List String) (q : DnsOutcome) (m : String) :
    check_dns_indicators .nxdomain q = check_dns_indicators (.ok []) q ∧
    check_dns_indicators .noanswer q = check_dns_indicators (.ok []) q ∧
    check_dns_indicators (.ok recs) .nxdomain = check_dns_indicators (.ok recs) (.ok []) ∧
    check_dns_indicators (.ok recs) .noanswer = check_dns_indicators (.ok recs) (.ok []) ∧
    check_dns_indicators (.failure m) q = [] ∧
    check_dns_indicators (.ok recs) (.failure m) = check_dns_indicators (.ok recs) (.ok []) := by
  refine ⟨?_, ?_, ?_, ?_, ?_, ?_⟩ <;>
    simp [check_dns_indicators, cnamePhase_eq, txtIndicators]

/-- C6, counterexample: the standalone resolver applied to the empty
indicator list returns the string `"unknown"`, not an absent value —
the very state the claim requires it to be distinct from. -/
theorem c6_counterexample : determine_waf_type [] = "unknown" := by decide

/-- C6, amended: `_determine_waf_type([])` itself returns the string
`"unknown"`, but `check_waf_protection` only calls it when the indicator
list is non-empty, so a result with no indicators carries
`waf_type = None` (absent), which is distinct from `"unknown"`. -/
theorem c6_empty_resolution :
    determine_waf_type [] = "unknown" ∧
    ∀ (url : String) (env : Env),
      (check_waf_protection url env).waf_indicators = [] →
      (check_waf_protection url env).waf_type = none := by
  refine ⟨by decide, fun url env hind => ?_⟩
  rcases env with ⟨p, tq, cq, h⟩
  rw [check_fields] at hind ⊢
  cases p with
  | error e => rfl
  | ok d =>
    cases h with
    | error e => rfl
    | ok k =>
      simp only at hind ⊢
      simp [hind]

/-- C6, witness: a check with no indicators at all has `waf_type`
absent. -/
theorem c6_witness :
    (check_waf_protection "https://example.com"
        ⟨.ok "example.com", .noanswer, .noanswer,
         .ok ⟨200, 1, ⟨[], [], some "hello"⟩⟩⟩).waf_type = none :=
  c6_empty_resolution.2 _ _ (by decide)

/-- C7: the vendor resolver is deterministic — it is a function of the
indicator list alone, so two runs on the same input agree — and on the
tie `[cloudflare, akamai]` it returns the documented first-seen vendor
`"cloudflare"` (Python's `max` keeps the first key attaining the
maximum in dict insertion order). -/
theorem c7_resolver_deterministic :
    (∀ (l : List String) (r₁ r₂ : String),
        determine_waf_type l = r₁ → determine_waf_type l = r₂ → r₁ = r₂) ∧
    determine_waf_type ["HTTP_HEADER_cloudflare", "HTTP_HEADER_akamai"] = "cloudflare" :=
  ⟨fun _ _ _ h1 h2 => h1.symm.trans h2, by decide⟩

/-- C7, witness: both runs of the resolver on the tie input return the
same vendor, `"cloudflare"`. -/
theorem c7_witness :
    determine_waf_type ["HTTP_HEADER_cloudflare", "HTTP_HEADER_akamai"] = "cloudflare" :=
  c7_resolver_deterministic.1 _ _ _ rfl (by decide)

/-- C1, counterexample: with a `cloudflare` TXT indicator present and
the fetch refused, the code leaves `waf_type` at `None` (the resolver
call sits after the fetch in the `try` block and is skipped by the
exception) while `waf_detected` is `True`, so "`wafVendor` is set iff
`wafDetected` is true" fails on this input. -/
theorem c1_counterexample :
    ¬ ((check_waf_protection "https://example.com"
          ⟨.ok "example.com", .ok ["cloudflare-verify=1"], .noanswer,
           .error "connection refused"⟩).waf_type.isSome =
        (check_waf_protection "https://example.com"
          ⟨.ok "example.com", .ok ["cloudflare-verify=1"], .noanswer,
           .error "connection refused"⟩).waf_detected) := by
  decide

/-- C1, amended: on a fetch exception the result has `error` set,
`status_code` and `response_time` absent, carries exactly the
DNS-derived indicators with `waf_detected` true iff one is present —
but `waf_type` remains absent in this path (the vendor verdict is
computed only after a successful fetch). -/
theorem c1_http_error_result (url : String) (env : Env) (d e : String)
    (hp : env.parseNetloc = .ok d) (hh : env.http = .error e) :
    (check_waf_protection url env).error = some e ∧
    (check_waf_protection url env).status_code = none ∧
    (check_waf_protection url env).response_time = none ∧
    (check_waf_protection url env).waf_indicators
        = check_dns_indicators env.txtQ env.cnameQ ∧
    (check_waf_protection url env).waf_detected
        = !(check_dns_indicators env.txtQ env.cnameQ).isEmpty ∧
    (check_waf_protection url env).waf_type = none := by
  rw [check_fields, hp, hh]
  simp

/-- C1, witness: the amended statement at a concrete refused fetch with
one DNS TXT indicator. -/
theorem c1_witness :
    (check_waf_protection "https://example.com"
        ⟨.ok "example.com", .ok ["cloudflare-verify=1"], .noanswer,
         .error "connection refused"⟩).error = some "connection refused" ∧
    (check_waf_protection "https://example.com"
        ⟨.ok "example.com", .ok ["cloudflare-verify=1"], .noanswer,
         .error "connection refused"⟩).status_code = none ∧
    (check_waf_protection "https://example.com"
        ⟨.ok "example.com", .ok ["cloudflare-verify=1"], .noanswer,
         .error "connection refused"⟩).response_time = none ∧
    (check_waf_protection "https://example.com"
        ⟨.ok "example.com", .ok ["cloudflare-verify=1"], .noanswer,
         .error "connection refused"⟩).waf_indicators
        = check_dns_indicators (.ok ["cloudflare-verify=1"]) .noanswer ∧
    (check_waf_protection "https://example.com"
        ⟨.ok "example.com", .ok ["cloudflare-verify=1"], .noanswer,
         .error "connection refused"⟩).waf_detected
        = !(check_dns_indicators (.ok ["cloudflare-verify=1"]) .noanswer).isEmpty ∧
    (check_waf_protection "https://example.com"
        ⟨.ok "example.com", .ok ["cloudflare-verify=1"], .noanswer,
         .error "connection refused"⟩).waf_type = none :=
  c1_http_error_result "https://example.com"
    ⟨.ok "example.com", .ok ["cloudflare-verify=1"], .noanswer,
     .error "connection refused"⟩ "example.com" "connection refused" rfl rfl

/-- C4: for every URL and environment, `waf_detected` is true exactly
when the indicator list is non-empty. -/
theorem c4_detected_iff_indicators (url : String) (env : Env) :
    (check_waf_protection url env).waf_detected = true ↔
    (check_waf_protection url env).waf_indicators ≠ [] := by
  rcases env with ⟨p, tq, cq, h⟩
  rw [check_fields]
  cases p with
  | error e => simp
  | ok d =>
    cases h with
    | error e => simp [List.isEmpty_iff]
    | ok k => simp [List.isEmpty_iff]

/-- C9: `check_waf_protection` is total at its boundary — a function
into the record type `CheckResult`, which carries all seven fields — it
echoes the probed URL, and `error` is populated exactly when the URL
parse or the HTTP fetch raised; the DNS check itself never raises
(`check_dns_indicators` is total). -/
theorem c9_total_boundary (url : String) (env : Env) :
    (check_waf_protection url env).url = url ∧
    (check_waf_protection url env).error.isSome
        = (isErr env.parseNetloc || isErr env.http) := by
  rcases env with ⟨p, tq, cq, h⟩
  rw [check_fields]
  cases p <;> cases h <;> simp [isErr]

/-- C8: matching is case-insensitive in the probed input.  Every
collector lowercases the probed datum before testing the (lowercase)
signatures, so any two re-casings of a header name, header value,
cookie name, body text, TXT record text or CNAME target — inputs with
the same lowercase image — yield the same indicators. -/
theorem c8_case_insensitive (n n' v v' ck ck' b b' t t' g g' : String)
    (hn : lowerStr n = lowerStr n') (hv : lowerStr v = lowerStr v')
    (hc : lowerStr ck = lowerStr ck') (hb : lowerStr b = lowerStr b')
    (ht : lowerStr t = lowerStr t') (hg : lowerStr g = lowerStr g') :
    headerIndicatorsFor (n, v) = headerIndicatorsFor (n', v') ∧
    cookieIndicatorsFor ck = cookieIndicatorsFor ck' ∧
    bodyIndicators (some b) = bodyIndicators (some b') ∧
    txtIndicatorsFor t = txtIndicatorsFor t' ∧
    ∀ acc : List String, cnameScan acc [g] = cnameScan acc [g'] := by
  refine ⟨?_, ?_, ?_, ?_, fun acc => ?_⟩ <;>
    simp [headerIndicatorsFor, cookieIndicatorsFor, bodyIndicators,
      txtIndicatorsFor, cnameScan, hn, hv, hc, hb, ht, hg]

/-- C8, witness: uppercased matching inputs yield the same indicators
as their lowercase forms at concrete data. -/
theorem c8_witness :
    headerIndicatorsFor ("CF-RAY", "ABCD1234") = headerIndicatorsFor ("cf-ray", "abcd1234") ∧
    cookieIndicatorsFor "__CFDUID" = cookieIndicatorsFor "__cfduid" ∧
    bodyIndicators (some "Protected by CLOUDFLARE")
        = bodyIndicators (some "protected by cloudflare") ∧
    txtIndicatorsFor "V=CLOUDFLARE-VERIFY" = txtIndicatorsFor "v=cloudflare-verify" ∧
    cnameScan [] ["D1.CLOUDFRONT.NET."] = cnameScan [] ["d1.cloudfront.net."] := by
  have H := c8_case_insensitive "CF-RAY" "cf-ray" "ABCD1234" "abcd1234"
    "__CFDUID" "__cfduid" "Protected by CLOUDFLARE" "protected by cloudflare"
    "V=CLOUDFLARE-VERIFY" "v=cloudflare-verify" "D1.CLOUDFRONT.NET." "d1.cloudfront.net."
    (by decide) (by decide) (by decide) (by decide) (by decide) (by decide)
  exact ⟨H.1, H.2.1, H.2.2.1, H.2.2.2.1, H.2.2.2.2 []⟩

/-- The tally of a tagged filterMap over an association list is bounded
by the multiplicity of the key among the list's keys. -/
theorem count_filterMap_tag_le (tag v : String) (f : String × List String → Bool)
    (L : List (String × List String)) :
    ((L.filterMap fun wp => if f wp then some (tag ++ wp.1) else none).count (tag ++ v))
      ≤ (L.map Prod.fst).count v := by
  induction L with
  | nil => simp
  | cons hd tl ih =>
    by_cases hf : f hd
    · by_cases h1 : hd.1 = v
      · subst h1
        simp only [List.filterMap_cons, List.map_cons, if_pos hf, List.count_cons,
          beq_self_eq_true, if_true]
        omega
      · have h2 : (tag ++ hd.1) ≠ (tag ++ v) := fun hcon => h1 (string_append_cancel hcon)
        simp only [List.filterMap_cons, List.map_cons, if_pos hf, List.count_cons,
          beq_iff_eq, h1, h2, if_false]
        omega
    · simp only [List.filterMap_cons, List.map_cons, if_neg hf, List.count_cons]
      omega

/-- The registry's vendor names are pairwise distinct. -/
theorem waf_patterns_names_nodup : (waf_patterns.map Prod.fst).Nodup := by decide

/-- Hence every vendor occurs at most once among the registry keys. -/
theorem count_names_le_one (v : String) : (waf_patterns.map Prod.fst).count v ≤ 1 :=
  List.nodup_iff_count_le_one.mp waf_patterns_names_nodup v

/-- Every member of a tagged filterMap carries the tag. -/
theorem mem_filterMap_tag {tag : String} {f : String × List String → Bool}
    {L : List (String × List String)} {x : String}
    (hx : x ∈ L.filterMap fun wp => if f wp then some (tag ++ wp.1) else none) :
    ∃ w, x = tag ++ w := by
  rw [List.mem_filterMap] at hx
  obtain ⟨wp, _, hwp⟩ := hx
  by_cases hf : f wp
  · rw [if_pos hf] at hwp
    exact ⟨wp.1, (Option.some.inj hwp).symm⟩
  · rw [if_neg hf] at hwp
    cases hwp

/-- `HTTP_BODY_`-tagged labels are never `HTTP_HEADER_`-tagged. -/
theorem tag_body_ne_header (a b : String) : "HTTP_BODY_" ++ a ≠ "HTTP_HEADER_" ++ b := by
  intro h
  have h2 := congrArg String.data h
  rw [String.data_append, String.data_append] at h2
  have e1 : "HTTP_BODY_".data = ['H', 'T', 'T', 'P', '_', 'B', 'O', 'D', 'Y', '_'] := rfl
  have e2 : "HTTP_HEADER_".data
      = ['H', 'T', 'T', 'P', '_', 'H', 'E', 'A', 'D', 'E', 'R', '_'] := rfl
  rw [e1, e2] at h2
  simp at h2

/-- `HTTP_BODY_`-tagged labels are never `HTTP_COOKIE_`-tagged. -/
theorem tag_body_ne_cookie (a b : String) : "HTTP_BODY_" ++ a ≠ "HTTP_COOKIE_" ++ b := by
  intro h
  have h2 := congrArg String.data h
  rw [String.data_append, String.data_append] at h2
  have e1 : "HTTP_BODY_".data = ['H', 'T', 'T', 'P', '_', 'B', 'O', 'D', 'Y', '_'] := rfl
  have e2 : "HTTP_COOKIE_".data
      = ['H', 'T', 'T', 'P', '_', 'C', 'O', 'O', 'K', 'I', 'E', '_'] := rfl
  rw [e1, e2] at h2
  simp at h2

/-- An element absent from the seed and from every per-item batch is
absent from the appending fold. -/
theorem notMem_foldl_append {α : Type} (x : String) (f : α → List String) :
    ∀ (hs : List α) (acc : List String), x ∉ acc → (∀ h, x ∉ f h) →
      x ∉ hs.foldl (fun a h => a ++ f h) acc
  | [], _, hacc, _ => hacc
  | hd :: tl, acc, hacc, hall => by
    simp only [List.foldl_cons]
    exact notMem_foldl_append x f tl (acc ++ f hd)
      (fun hmem => (List.mem_append.mp hmem).elim hacc (hall hd)) hall

/-- The header phase never emits a body-tagged label. -/
theorem count_bodyTag_headerPhase (hs : List (String × String)) (v : String) :
    (headerIndicators hs).count ("HTTP_BODY_" ++ v) = 0 := by
  rw [List.count_eq_zero]
  refine notMem_foldl_append _ headerIndicatorsFor hs [] (by simp) fun h hmem => ?_
  obtain ⟨w, hw⟩ := mem_filterMap_tag hmem
  exact tag_body_ne_header v w hw

/-- The cookie phase never emits a body-tagged label. -/
theorem count_bodyTag_cookiePhase (cs : List String) (v : String) :
    (cookieIndicators cs).count ("HTTP_BODY_" ++ v) = 0 := by
  rw [List.count_eq_zero]
  refine notMem_foldl_append _ cookieIndicatorsFor cs [] (by simp) fun c hmem => ?_
  obtain ⟨w, hw⟩ := mem_filterMap_tag hmem
  exact tag_body_ne_cookie v w hw

/-- C10: for one response, a vendor yields at most one `HTTP_HEADER`
indicator per header pair, at most one `HTTP_COOKIE` indicator per
cookie, and at most one `HTTP_BODY` indicator in the entire output of
`_check_http_indicators`, however many of its signatures match. -/
theorem c10_at_most_one_per_vendor (n val ck : String) (b : Option String)
    (r : HttpResponse) (v : String) :
    (headerIndicatorsFor (n, val)).count ("HTTP_HEADER_" ++ v) ≤ 1 ∧
    (cookieIndicatorsFor ck).count ("HTTP_COOKIE_" ++ v) ≤ 1 ∧
    (bodyIndicators b).count ("HTTP_BODY_" ++ v) ≤ 1 ∧
    (check_http_indicators r).count ("HTTP_BODY_" ++ v) ≤ 1 := by
  have hbody : ∀ b' : Option String, (bodyIndicators b').count ("HTTP_BODY_" ++ v) ≤ 1 := by
    intro b'
    cases b' with
    | none => simp [bodyIndicators]
    | some s =>
      simp only [bodyIndicators]
      exact le_trans (count_filterMap_tag_le "HTTP_BODY_" v _ waf_patterns)
        (count_names_le_one v)
  refine ⟨?_, ?_, hbody b, ?_⟩
  · simp only [headerIndicatorsFor]
    exact le_trans (count_filterMap_tag_le "HTTP_HEADER_" v _ waf_patterns)
      (count_names_le_one v)
  · simp only [cookieIndicatorsFor]
    exact le_trans (count_filterMap_tag_le "HTTP_COOKIE_" v _ waf_patterns)
      (count_names_le_one v)
  · rw [check_http_indicators, List.count_append, List.count_append,
      count_bodyTag_headerPhase, count_bodyTag_cookiePhase]
    simpa using hbody r.body

end WafChecker
